import Mathlib

/-!
Shallow embedding of `app.py` from the licence-compliance-checker
repository: the policy table, the compliance classifier, the two manifest
parsers, the two registry license resolvers (with the HTTP layer modelled
as an oracle argument), and the two request pipelines (direct upload and
GitHub repository snapshot).  Whitespace and line-break handling is
modelled over the ASCII repertoire used by the manifests.
-/

namespace LicenceChecker

/-- Whitespace characters recognised by the model of Python `str.strip`
and of the regex class (backslash s), restricted to the ASCII repertoire. -/
def isPySpace (c : Char) : Bool :=
  c = ' ' || c = '\t' || c = '\n' || c = '\r' || c = '\x0b' || c = '\x0c'

/-- Model of Python `str.splitlines` (accumulator holds the current line,
reversed).  A carriage-return/newline pair counts as one break; a final
unterminated line is emitted only when non-empty, as in Python. -/
def splitlinesAux (cur : List Char) : List Char → List String
  | [] => if cur.isEmpty then [] else [⟨cur.reverse⟩]
  | '\r' :: '\n' :: rest => ⟨cur.reverse⟩ :: splitlinesAux [] rest
  | '\n' :: rest => ⟨cur.reverse⟩ :: splitlinesAux [] rest
  | '\r' :: rest => ⟨cur.reverse⟩ :: splitlinesAux [] rest
  | c :: rest => splitlinesAux (c :: cur) rest

/-- Model of Python `str.splitlines` on a string. -/
def pySplitlines (s : String) : List String :=
  splitlinesAux [] s.data

/-- Model of Python `str.strip` on a character list: drop leading
whitespace, then trailing whitespace. -/
def charStrip (l : List Char) : List Char :=
  ((l.dropWhile isPySpace).reverse.dropWhile isPySpace).reverse

/-- Model of Python `str.strip`. -/
def pyStrip (s : String) : String :=
  ⟨charStrip s.data⟩

/-- Helper for the model of the Python `in` operator on strings. -/
def containsSubAux (n : List Char) : List Char → Bool
  | [] => n.isEmpty
  | c :: t => List.isPrefixOf n (c :: t) || containsSubAux n t

/-- Model of the Python substring test `needle in hay`. -/
def pyIn (needle hay : String) : Bool :=
  containsSubAux needle.data hay.data

/-- Model of Python `str.split` with the two-character separator used at
`classifier.split("::")`: leftmost, non-overlapping, always non-empty
result. -/
def splitDColonAux (cur : List Char) : List Char → List String
  | [] => [⟨cur.reverse⟩]
  | ':' :: ':' :: rest => ⟨cur.reverse⟩ :: splitDColonAux [] rest
  | c :: rest => splitDColonAux (c :: cur) rest

/-- Model of `classifier.split("::")`. -/
def pySplitDColon (s : String) : List String :=
  splitDColonAux [] s.data

/-- A license policy: the two lists stored under `allowed` and
`disallowed` in the in-memory `policies` table. -/
structure Policy where
  allowed : List String
  disallowed : List String
deriving DecidableEq, Repr

/-- The built-in `"default"` policy of `app.py`. -/
def defaultPolicy : Policy :=
  ⟨["MIT", "Apache-2.0", "BSD-3-Clause", "ISC"],
   ["GPL-2.0", "GPL-3.0", "AGPL-3.0"]⟩

/-- The in-memory `policies` dictionary of `app.py`: a single entry named
`"default"`. -/
def policies : List (String × Policy) :=
  [("default", defaultPolicy)]

/-- Model of `policies.get(policy_name, policies["default"])` in the
`check` route.  The inner `getD` default is unreachable because the key
`"default"` is present in the table. -/
def selectPolicy (policy_name : String) : Policy :=
  (policies.lookup policy_name).getD ((policies.lookup "default").getD ⟨[], []⟩)

/-- Model of `policies.get("default")` in `analyze_github_repository`
(the key is present, so the `getD` default is unreachable). -/
def repoPolicy : Policy :=
  (policies.lookup "default").getD ⟨[], []⟩

/-- A Python value reaching `check_compliance`: a string, or (defensively)
anything else. -/
inductive PyVal where
  | str (s : String)
  | nonstr
deriving DecidableEq, Repr

/-- Model of `check_compliance(license, policy)`: non-strings and SPDX
compound expressions are review-required, then exact membership in the
allowed and disallowed lists is tested. -/
def check_compliance (license : PyVal) (policy : Policy) : String :=
  match license with
  | .nonstr => "review-required"
  | .str s =>
    if pyIn " OR " s || pyIn " AND " s then "review-required"
    else if policy.allowed.contains s then "compliant"
    else if policy.disallowed.contains s then "non-compliant"
    else "review-required"

/-- Characters of the regex class `[a-zA-Z0-9_.-]` used by
`parse_requirements_txt`. -/
def isNameChar (c : Char) : Bool :=
  c.isAlpha || c.isDigit || c = '_' || c = '.' || c = '-'

/-- Model of matching the compiled pattern (caret, whitespace star, then a
captured run of name characters) against a line and extracting group 1. -/
def matchPackage (line : String) : Option String :=
  let afterWs := line.data.dropWhile isPySpace
  let name := afterWs.takeWhile isNameChar
  if name.isEmpty then none else some ⟨name⟩

/-- Model of `parse_requirements_txt(content)`: split into lines, strip
each, skip empty and `#`-comment lines, collect the leading package token
of each remaining line. -/
def parse_requirements_txt (content : String) : List String :=
  (pySplitlines content).filterMap (fun line =>
    let stripped := pyStrip line
    if stripped.data.isEmpty || stripped.data.head? == some '#' then none
    else matchPackage stripped)

/-- The fields of a PyPI package response that `get_license_from_pypi`
reads: `info.license` (absent or null modelled by `none`) and
`info.classifiers` (absent modelled by the empty list, matching the
`get` default). -/
structure PyPIInfo where
  license : Option String
  classifiers : List String
deriving DecidableEq, Repr

/-- Model of the condition
`not license_info or license_info.strip() == "UNKNOWN"` that triggers
the classifier fallback. -/
def pypiFallbackNeeded : Option String → Bool
  | none => true
  | some s => s.isEmpty || pyStrip s == "UNKNOWN"

/-- Model of `classifier.split("::")[-1].strip()`. -/
def extractFromClassifier (c : String) : String :=
  pyStrip ((pySplitDColon c).getLastD "")

/-- Model of the fallback loop over `info.classifiers`: the first entry
containing `"License ::"` supplies the license (and the loop breaks). -/
def findLicenseClassifier : List String → Option String
  | [] => none
  | c :: rest =>
    if pyIn "License ::" c then some (extractFromClassifier c)
    else findLicenseClassifier rest

/-- Model of the Python idiom `x or d` for an optional string `x`:
`None` and the empty string give `d`. -/
def pyOr (x : Option String) (d : String) : String :=
  match x with
  | none => d
  | some s => if s.isEmpty then d else s

/-- The body of `get_license_from_pypi` after a successful request:
read `info.license`, run the classifier fallback when it is falsy or
trims to `"UNKNOWN"`, and finally apply `license_info or "Unknown"`. -/
def get_license_from_pypi_body (info : PyPIInfo) : String :=
  let license_info := info.license
  let license_info2 :=
    if pypiFallbackNeeded license_info then
      match findLicenseClassifier info.classifiers with
      | some v => some v
      | none => license_info
    else license_info
  pyOr license_info2 "Unknown"

/-- Outcome of one `requests.get` call: a raised transport-level
`RequestException`, or a response carrying an HTTP status code and a
body; `none` for the body models a body that `response.json()` fails to
parse (raised as a `RequestException` subclass by the requests library). -/
inductive HttpResult (α : Type) where
  | transportError
  | response (status : Nat) (body : Option α)
deriving DecidableEq, Repr

/-- Model of the condition under which `response.raise_for_status()`
raises: a 4xx or 5xx status code. -/
def raiseForStatusFails (status : Nat) : Bool :=
  400 ≤ status && status < 600

/-- An HTTP interaction that ends in the `except RequestException`
handler: a transport error, or a status that makes `raise_for_status`
raise. -/
def httpFailed : HttpResult α → Bool
  | .transportError => true
  | .response status _ => raiseForStatusFails status

/-- Model of `get_license_from_pypi`, with the network call abstracted
into its `HttpResult`.  Every `RequestException` path returns the
sentinel; the function never raises. -/
def get_license_from_pypi (resp : HttpResult PyPIInfo) : String :=
  match resp with
  | .transportError => "Error fetching license"
  | .response status body =>
    if raiseForStatusFails status then "Error fetching license"
    else
      match body with
      | none => "Error fetching license"
      | some info => get_license_from_pypi_body info

/-- The `license` field of an npm registry response as
`get_license_from_npm` reads it: absent or null, a plain string, or an
object whose optional `type` field is consulted. -/
inductive NpmLicense where
  | missing
  | str (s : String)
  | obj (type? : Option String)
deriving DecidableEq, Repr

/-- The body of `get_license_from_npm` after a successful request. -/
def get_license_from_npm_body (lic : NpmLicense) : String :=
  match lic with
  | .obj t => t.getD "Unknown"
  | .str s => pyOr (some s) "Unknown"
  | .missing => pyOr none "Unknown"

/-- Model of `get_license_from_npm`, with the network call abstracted
into its `HttpResult`. -/
def get_license_from_npm (resp : HttpResult NpmLicense) : String :=
  match resp with
  | .transportError => "Error fetching license"
  | .response status body =>
    if raiseForStatusFails status then "Error fetching license"
    else
      match body with
      | none => "Error fetching license"
      | some lic => get_license_from_npm_body lic

/-- The two fields of a parsed `package.json` that the code reads, each
a Python dict modelled as an association list with pairwise-distinct
keys (a guarantee of `json.loads`); `dependencies` and
`devDependencies` default to the empty dict when absent. -/
structure PackageJson where
  dependencies : List (String × String)
  devDependencies : List (String × String)
deriving DecidableEq, Repr

/-- Model of the Python dict merge written as a double-splat of two
dicts: keys of the first in order (values overridden by the second
where present), then the new keys of the second in order. -/
def pyDictMerge (d1 d2 : List (String × String)) : List (String × String) :=
  d1.map (fun kv => (kv.1, (d2.lookup kv.1).getD kv.2))
    ++ d2.filter (fun kv => (d1.lookup kv.1).isNone)

/-- The dependency names iterated by `for package in all_deps`: the keys
of the merged dict, in insertion order. -/
def parseNodeDependencyNames (pj : PackageJson) : List String :=
  (pyDictMerge pj.dependencies pj.devDependencies).map Prod.fst

/-- One element of the JSON result array:
`{"dependency": ..., "license": ..., "status": ...}`. -/
structure DependencyRecord where
  dependency : String
  license : String
  status : String
deriving DecidableEq, Repr

/-- The per-package loop run on a `requirements.txt` content: resolve a
license (the resolver plus its network abstracted as `pyL`) and
classify it, one record per parsed package. -/
def processRequirements (pyL : String → String) (content : String)
    (policy : Policy) : List DependencyRecord :=
  (parse_requirements_txt content).map (fun package =>
    ⟨package, pyL package, check_compliance (.str (pyL package)) policy⟩)

/-- The per-package loop run on a parsed `package.json`: resolve a
license via the npm resolver abstraction `npmL` and classify it. -/
def processPackageJson (npmL : String → String) (pj : PackageJson)
    (policy : Policy) : List DependencyRecord :=
  (parseNodeDependencyNames pj).map (fun package =>
    ⟨package, npmL package, check_compliance (.str (npmL package)) policy⟩)

/-- Outcome of `json.loads(content)` on a manifest: a parsed value
(restricted to the two fields the code reads) or a `JSONDecodeError`. -/
inductive JsonParseResult where
  | ok (pj : PackageJson)
  | err
deriving DecidableEq, Repr

/-- One entry of the downloaded zip archive: its name, its decoded text
content, and the outcome `json.loads` would have on that text (an
oracle standing for the standard-library JSON parser). -/
structure ZipEntry where
  filename : String
  raw : String
  jsonParsed : JsonParseResult
deriving DecidableEq, Repr

/-- Model of Python `str.endswith(suffix)`. -/
def pyEndsWith (s suffix : String) : Bool :=
  List.isSuffixOf suffix.data s.data

/-- One iteration of the loop over `zip_file.namelist()` in
`analyze_github_repository`: `requirements.txt` entries go through the
requirements parser, `package.json` entries through `json.loads` — an
entry whose JSON fails to parse is skipped by `continue` — and every
other entry is ignored. -/
def entryRecords (pyL npmL : String → String) (policy : Policy)
    (e : ZipEntry) : List DependencyRecord :=
  if pyEndsWith e.filename "requirements.txt" then
    processRequirements pyL e.raw policy
  else if pyEndsWith e.filename "package.json" then
    match e.jsonParsed with
    | .ok pj => processPackageJson npmL pj policy
    | .err => []
  else []

/-- The result accumulation of `analyze_github_repository` over the zip
entries, mirroring the `results.append` loop. -/
def analyze_zip (pyL npmL : String → String) (entries : List ZipEntry)
    (policy : Policy) : List DependencyRecord :=
  entries.foldl (fun results e => results ++ entryRecords pyL npmL policy e) []

/-- An error response of the `check` route: a 400 caller-input error or
a 500 produced by the generic exception handler. -/
inductive RequestError where
  | badRequest (msg : String)
  | serverError (msg : String)
deriving DecidableEq, Repr

/-- The 500 response produced when the repository download fails on both
branches (the `RequestException` handler re-raises, and `check` turns
the exception text into a 500 body). -/
def repoUnavailableErr : RequestError :=
  .serverError "Could not download repository. Please check the URL and that it\x27s a public repo."

/-- The 500 response produced when the downloaded bytes are not a valid
zip archive. -/
def invalidArchiveErr : RequestError :=
  .serverError "Failed to process the repository file. It may not be a valid zip archive."

/-- Direct-upload handling of a `requirements.txt` file in `check`: the
policy is the one selected from the requested policy name. -/
def check_upload_requirements (pyL : String → String)
    (policy_name content : String) : List DependencyRecord :=
  processRequirements pyL content (selectPolicy policy_name)

/-- Direct-upload handling of a `package.json` file in `check`: a JSON
parse failure returns the 400 response immediately, aborting the
request with no results. -/
def check_upload_packagejson (npmL : String → String) (policy_name : String)
    (parsed : JsonParseResult) : Except RequestError (List DependencyRecord) :=
  match parsed with
  | .ok pj => .ok (processPackageJson npmL pj (selectPolicy policy_name))
  | .err => .error (.badRequest "Invalid package.json file. Please check the file format.")

/-- The two archive URLs `analyze_github_repository` can fetch. -/
inductive Branch where
  | main
  | master
deriving DecidableEq, Repr

/-- The network behaviour of the two candidate archive fetches: each is
a raised transport exception (`none`) or a status code together with
the zip-entry decoding of the body (`none` for a `BadZipFile`). -/
structure RepoFetchOracle where
  mainResp : Option (Nat × Option (List ZipEntry))
  masterResp : Option (Nat × Option (List ZipEntry))
deriving DecidableEq, Repr

/-- A fetch outcome on which `raise_for_status` would end the attempt: a
transport exception or a 4xx/5xx status. -/
def respFailed : Option (Nat × Option (List ZipEntry)) → Bool
  | none => true
  | some (status, _) => raiseForStatusFails status

/-- Unzipping and scanning a fetched archive body: a `BadZipFile` turns
into the 500 invalid-archive response, otherwise the entry loop runs
with the hard-coded `"default"` policy. -/
def repoZipRecords (pyL npmL : String → String) :
    Option (List ZipEntry) → Except RequestError (List DependencyRecord)
  | none => .error invalidArchiveErr
  | some entries => .ok (analyze_zip pyL npmL entries repoPolicy)

/-- Model of `analyze_github_repository`: fetch the `main` archive; on a
non-200 status fetch `master` and let `raise_for_status` decide; every
`RequestException` becomes the repository-unavailable 500.  The first
component records which branch URLs were requested, in order. -/
def analyze_github_repository (o : RepoFetchOracle)
    (pyL npmL : String → String) :
    List Branch × Except RequestError (List DependencyRecord) :=
  match o.mainResp with
  | none => ([.main], .error repoUnavailableErr)
  | some (status, body) =>
    if status ≠ 200 then
      match o.masterResp with
      | none => ([.main, .master], .error repoUnavailableErr)
      | some (status2, body2) =>
        if raiseForStatusFails status2 then
          ([.main, .master], .error repoUnavailableErr)
        else ([.main, .master], repoZipRecords pyL npmL body2)
    else ([.main], repoZipRecords pyL npmL body)

/-- A zip entry on which the `continue` of the repository loop fires: it
is routed to the `package.json` arm (so it does not end with
`requirements.txt`) and its JSON fails to parse. -/
def skippedEntry (e : ZipEntry) : Bool :=
  !(pyEndsWith e.filename "requirements.txt")
    && pyEndsWith e.filename "package.json"
    && e.jsonParsed == JsonParseResult.err

/-! Helper lemmas. -/

lemma foldl_append_out (g : ZipEntry → List DependencyRecord) :
    ∀ (l : List ZipEntry) (a : List DependencyRecord),
      l.foldl (fun results e => results ++ g e) a
        = a ++ l.foldl (fun results e => results ++ g e) [] := by
  intro l
  induction l with
  | nil => intro a; simp
  | cons e t ih =>
    intro a
    simp only [List.foldl_cons]
    rw [ih (a ++ g e), ih ([] ++ g e)]
    simp

lemma analyze_zip_cons (pyL npmL : String → String) (policy : Policy)
    (e : ZipEntry) (t : List ZipEntry) :
    analyze_zip pyL npmL (e :: t) policy
      = entryRecords pyL npmL policy e ++ analyze_zip pyL npmL t policy := by
  unfold analyze_zip
  simp only [List.foldl_cons]
  rw [foldl_append_out (entryRecords pyL npmL policy) t]
  simp

lemma dropWhile_append_single (p : Char → Bool) (c : Char) (hc : p c = false)
    (l : List Char) : (l ++ [c]).dropWhile p = l.dropWhile p ++ [c] := by
  induction l with
  | nil => simp [List.dropWhile, hc]
  | cons a t ih =>
    cases hpa : p a <;> simp [List.dropWhile_cons, hpa, ih]

lemma charStrip_comment_head (l : List Char) (rest : List Char)
    (h : l.dropWhile isPySpace = '#' :: rest) :
    charStrip l = '#' :: (rest.reverse.dropWhile isPySpace).reverse := by
  unfold charStrip
  rw [h]
  have h2 : ('#' :: rest).reverse = rest.reverse ++ ['#'] := by simp
  rw [h2, dropWhile_append_single isPySpace '#' (by decide) rest.reverse]
  simp

lemma findLicenseClassifier_eq_find (l : List String) :
    findLicenseClassifier l
      = (l.find? (fun c => pyIn "License ::" c)).map extractFromClassifier := by
  induction l with
  | nil => rfl
  | cons c t ih =>
    cases h : pyIn "License ::" c <;>
      simp [findLicenseClassifier, List.find?_cons, h, ih]

lemma not_mem_keys_of_lookup_none (l : List (String × String)) (k : String)
    (h : l.lookup k = none) : k ∉ l.map Prod.fst := by
  induction l with
  | nil => simp
  | cons kv t ih =>
    obtain ⟨a, b⟩ := kv
    by_cases hk : k = a
    · subst hk; simp [List.lookup] at h
    · have ht : t.lookup k = none := by
        simpa [List.lookup, beq_false_of_ne hk] using h
      simp only [List.map_cons, List.mem_cons, not_or]
      exact ⟨hk, ih ht⟩

lemma selectPolicy_eq_default (name : String) :
    selectPolicy name = defaultPolicy := by
  unfold selectPolicy policies
  by_cases h : name = "default"
  · subst h; rfl
  · simp [List.lookup, beq_false_of_ne h]

lemma repoPolicy_eq_default : repoPolicy = defaultPolicy := by rfl

lemma check_compliance_cases (v : PyVal) (p : Policy) :
    check_compliance v p = "compliant" ∨ check_compliance v p = "non-compliant"
      ∨ check_compliance v p = "review-required" := by
  cases v with
  | nonstr => simp [check_compliance]
  | str s =>
    simp only [check_compliance]
    split
    · simp
    · split
      · simp
      · split <;> simp

lemma entryRecords_of_skipped (pyL npmL : String → String) (policy : Policy)
    (e : ZipEntry) (h : skippedEntry e = true) :
    entryRecords pyL npmL policy e = [] := by
  unfold skippedEntry at h
  simp only [Bool.and_eq_true, Bool.not_eq_true', beq_iff_eq] at h
  obtain ⟨⟨hreq, hpkg⟩, herr⟩ := h
  simp [entryRecords, hreq, hpkg, herr]

/-! Theorems settling the claims. -/

/-- C1: for every compliance-check request the Compliance Classifier runs
with the policy selected by the requested policy name (with fallback to
the default policy when the name is unknown): the direct-upload pipelines
use `selectPolicy` by construction, and the repository-snapshot pipeline,
whose policy is the hard-coded `"default"` lookup, classifies every
dependency with that same selected policy for every requested name,
because the policy table contains only the `"default"` entry. -/
theorem c1_policy_selection (name : String) (pyL npmL : String → String)
    (content : String) (pj : PackageJson) (entries : List ZipEntry) :
    check_upload_requirements pyL name content
        = processRequirements pyL content (selectPolicy name) ∧
    check_upload_packagejson npmL name (.ok pj)
        = .ok (processPackageJson npmL pj (selectPolicy name)) ∧
    analyze_zip pyL npmL entries repoPolicy
        = analyze_zip pyL npmL entries (selectPolicy name) :=
  ⟨rfl, rfl, by rw [selectPolicy_eq_default, repoPolicy_eq_default]⟩

/-- C4: a license string containing the literal substring of spaced OR or
spaced AND is classified review-required under every policy — even one
whose allowed list contains the full compound string — and only strings
without those substrings reach the exact, case-sensitive membership tests
against the allowed and disallowed lists. -/
theorem c4_compound_review_required (s : String) (p : Policy) :
    ((pyIn " OR " s || pyIn " AND " s) = true →
      check_compliance (.str s) p = "review-required") ∧
    ((pyIn " OR " s || pyIn " AND " s) = false →
      check_compliance (.str s) p =
        if p.allowed.contains s then "compliant"
        else if p.disallowed.contains s then "non-compliant"
        else "review-required") := by
  constructor
  · intro h
    simp [check_compliance, h]
  · intro h
    simp [check_compliance, h]

/-- C4 witness: the compound string is review-required even though it is
itself an element of the policy's allowed list. -/
theorem c4_witness :
    check_compliance (.str "(MIT OR Apache-2.0)")
        ⟨["(MIT OR Apache-2.0)"], []⟩ = "review-required" :=
  (c4_compound_review_required "(MIT OR Apache-2.0)"
    ⟨["(MIT OR Apache-2.0)"], []⟩).1 (by decide)

/-- C8: the example requirements content parses to exactly the packages
flask and requests, in file order. -/
theorem c8_parse_requirements_example :
    parse_requirements_txt "flask==2.0.1\n# comment\nrequests>=2,<3\n"
      = ["flask", "requests"] := by rfl

/-- C10: `check_compliance` is total over strings and non-strings alike
and always answers one of the three statuses, and consequently every
dependency record appended by the requirements and package.json loops
carries one of the three statuses. -/
theorem c10_status_total (v : PyVal) (p : Policy) :
    (check_compliance v p = "compliant" ∨ check_compliance v p = "non-compliant"
      ∨ check_compliance v p = "review-required") ∧
    (∀ (pyL : String → String) (content : String) (r : DependencyRecord),
        r ∈ processRequirements pyL content p →
        r.status = "compliant" ∨ r.status = "non-compliant"
          ∨ r.status = "review-required") ∧
    (∀ (npmL : String → String) (pj : PackageJson) (r : DependencyRecord),
        r ∈ processPackageJson npmL pj p →
        r.status = "compliant" ∨ r.status = "non-compliant"
          ∨ r.status = "review-required") := by
  refine ⟨check_compliance_cases v p, ?_, ?_⟩
  · intro pyL content r hr
    simp only [processRequirements, List.mem_map] at hr
    obtain ⟨pkg, hmem, rfl⟩ := hr
    exact check_compliance_cases (.str (pyL pkg)) p
  · intro npmL pj r hr
    simp only [processPackageJson, List.mem_map] at hr
    obtain ⟨pkg, hmem, rfl⟩ := hr
    exact check_compliance_cases (.str (npmL pkg)) p

/-- C10 witness: a concrete record produced by the requirements loop has
one of the three statuses. -/
theorem c10_witness :
    (⟨"flask", "MIT", "compliant"⟩ : DependencyRecord).status = "compliant"
      ∨ (⟨"flask", "MIT", "compliant"⟩ : DependencyRecord).status = "non-compliant"
      ∨ (⟨"flask", "MIT", "compliant"⟩ : DependencyRecord).status = "review-required" :=
  (c10_status_total (.str "MIT") defaultPolicy).2.1 (fun _ => "MIT")
    "flask==1.0" ⟨"flask", "MIT", "compliant"⟩ (by decide)

/-- C3 counterexample: with `info.license` equal to the literal string
UNKNOWN and no classifier entry, the resolver returns that string
unchanged — not the sentinel Unknown the claim requires — because the
final `or` fallback only replaces falsy values; and when the first
matching classifier yields an empty extract, the resolver returns
Unknown rather than the (empty) extracted substring. -/
theorem c3_counterexample :
    get_license_from_pypi (.response 200 (some ⟨some "UNKNOWN", []⟩)) = "UNKNOWN" ∧
    ("UNKNOWN" : String) ≠ "Unknown" ∧
    get_license_from_pypi (.response 200 (some ⟨none, ["License ::"]⟩)) = "Unknown" ∧
    extractFromClassifier "License ::" = "" :=
  ⟨rfl, by decide, rfl, rfl⟩

/-- C3 amended: under the fallback condition (license absent, empty, or
trimming to UNKNOWN), if no classifier entry contains the substring
License-colon-colon the resolver returns the license field subjected to
the Python or-fallback — the sentinel Unknown exactly when the field is
absent or empty, otherwise the field unchanged; if such an entry exists,
the resolver returns the trimmed substring after the last double-colon of
the first such entry, subjected to the same or-fallback (Unknown when
that substring is empty). -/
theorem c3_amended_fallback (info : PyPIInfo)
    (hfb : pypiFallbackNeeded info.license = true) :
    (info.classifiers.find? (fun c => pyIn "License ::" c) = none →
        get_license_from_pypi_body info = pyOr info.license "Unknown") ∧
    (∀ c, info.classifiers.find? (fun c => pyIn "License ::" c) = some c →
        get_license_from_pypi_body info
          = pyOr (some (extractFromClassifier c)) "Unknown") := by
  constructor
  · intro hnone
    simp [get_license_from_pypi_body, hfb, findLicenseClassifier_eq_find, hnone]
  · intro c hc
    simp [get_license_from_pypi_body, hfb, findLicenseClassifier_eq_find, hc]

/-- C3 witness: a license field of UNKNOWN falls back to the classifier
list and yields the extract of its first matching entry. -/
theorem c3_amended_witness :
    get_license_from_pypi_body
        ⟨some "UNKNOWN", ["License :: OSI Approved :: MIT License"]⟩
      = pyOr (some (extractFromClassifier "License :: OSI Approved :: MIT License"))
          "Unknown" :=
  (c3_amended_fallback ⟨some "UNKNOWN", ["License :: OSI Approved :: MIT License"]⟩
      (by decide)).2
    "License :: OSI Approved :: MIT License" (by decide)

/-- C6 counterexample: a 300 status is not a 2xx success, yet
`raise_for_status` raises only on 4xx and 5xx, so the PyPI resolver
processes the body of a 300 response normally and returns its license
instead of the error sentinel. -/
theorem c6_counterexample :
    get_license_from_pypi (.response 300 (some ⟨some "MIT", []⟩)) = "MIT" ∧
    get_license_from_pypi (.response 300 (some ⟨some "MIT", []⟩))
      ≠ "Error fetching license" :=
  ⟨rfl, by decide⟩

/-- C6 amended: each resolver returns the sentinel on any transport error
and on any 4xx or 5xx status (the statuses on which `raise_for_status`
raises, which include timeout and 404 from the claim); the embedding is a
total string-valued function, so no exception reaches the caller on those
paths.  Statuses outside 2xx that `raise_for_status` accepts (1xx and
3xx responses delivered to the caller) are processed as success. -/
theorem c6_amended_sentinel (rp : HttpResult PyPIInfo) (rn : HttpResult NpmLicense)
    (hp : httpFailed rp = true) (hn : httpFailed rn = true) :
    get_license_from_pypi rp = "Error fetching license" ∧
    get_license_from_npm rn = "Error fetching license" := by
  constructor
  · cases rp with
    | transportError => rfl
    | response st body =>
      simp only [httpFailed] at hp
      simp [get_license_from_pypi, hp]
  · cases rn with
    | transportError => rfl
    | response st body =>
      simp only [httpFailed] at hn
      simp [get_license_from_npm, hn]

/-- C6 witness: a 404 on PyPI and a transport timeout on npm both give
the sentinel. -/
theorem c6_amended_witness :
    get_license_from_pypi (.response 404 (some ⟨some "MIT", []⟩))
        = "Error fetching license" ∧
    get_license_from_npm .transportError = "Error fetching license" :=
  c6_amended_sentinel (.response 404 (some ⟨some "MIT", []⟩)) .transportError
    (by decide) (by decide)

/-- C9: the example manifest with dependency a and devDependency b yields
exactly the names a then b; and in general, because the two dicts are
merged by key before iteration, every name occurs at most once in the
extracted collection whenever each dict has pairwise-distinct keys (as
`json.loads` guarantees). -/
theorem c9_merged_dependency_names (d1 d2 : List (String × String)) (name : String)
    (h1 : (d1.map Prod.fst).Nodup) (h2 : (d2.map Prod.fst).Nodup) :
    parseNodeDependencyNames ⟨[("a", "1.0")], [("b", "2.0")]⟩ = ["a", "b"] ∧
    (parseNodeDependencyNames ⟨d1, d2⟩).count name ≤ 1 := by
  refine ⟨rfl, ?_⟩
  have hnd : (parseNodeDependencyNames ⟨d1, d2⟩).Nodup := by
    unfold parseNodeDependencyNames pyDictMerge
    simp only [List.map_append]
    rw [List.nodup_append]
    have e1 : (d1.map (fun kv => ((kv.1 : String), (d2.lookup kv.1).getD kv.2))).map
        Prod.fst = d1.map Prod.fst := by
      rw [List.map_map]; rfl
    refine ⟨?_, ?_, ?_⟩
    · rw [e1]; exact h1
    · exact h2.sublist (List.Sublist.map Prod.fst (List.filter_sublist d2))
    · rw [e1]
      intro x hx1 hx2
      simp only [List.mem_map] at hx2
      obtain ⟨kv, hkvmem, hkvx⟩ := hx2
      rw [List.mem_filter] at hkvmem
      have hnone : d1.lookup kv.1 = none :=
        Option.isNone_iff_eq_none.mp hkvmem.2
      exact not_mem_keys_of_lookup_none d1 kv.1 hnone (hkvx ▸ hx1)
  exact List.nodup_iff_count_le_one.mp hnd name

/-- C9 witness: a name declared in both dicts appears once after the
merge. -/
theorem c9_witness :
    (parseNodeDependencyNames ⟨[("a", "1.0")], [("a", "2.0")]⟩).count "a" ≤ 1 :=
  (c9_merged_dependency_names [("a", "1.0")] [("a", "2.0")] "a"
    (by decide) (by decide)).2

/-- C5: in repository-snapshot mode, whenever the main-branch fetch
returns a non-success status the master-branch URL is attempted exactly
once — the attempt trace is precisely main then master — and if that
attempt also fails (transport error or a status on which
`raise_for_status` raises) the request fails with the
repository-unavailable error; when the main fetch succeeds with 200 the
trace is main alone, so the master URL is never attempted. -/
theorem c5_branch_fallback (o : RepoFetchOracle) (pyL npmL : String → String)
    (st : Nat) (body : Option (List ZipEntry))
    (h : o.mainResp = some (st, body)) :
    (st ≠ 200 →
      (analyze_github_repository o pyL npmL).1 = [Branch.main, Branch.master] ∧
      (respFailed o.masterResp = true →
        (analyze_github_repository o pyL npmL).2 = .error repoUnavailableErr)) ∧
    (st = 200 → (analyze_github_repository o pyL npmL).1 = [Branch.main]) := by
  obtain ⟨mr, msr⟩ := o
  simp only at h
  subst h
  constructor
  · intro hne
    constructor
    · simp only [analyze_github_repository, if_pos hne]
      cases msr with
      | none => rfl
      | some pr =>
        obtain ⟨st2, b2⟩ := pr
        by_cases h2 : raiseForStatusFails st2 = true
        · simp [h2]
        · simp [Bool.not_eq_true] at h2
          simp [h2]
    · intro hm
      simp only [analyze_github_repository, if_pos hne]
      cases msr with
      | none => rfl
      | some pr =>
        obtain ⟨st2, b2⟩ := pr
        simp only [respFailed] at hm
        simp [hm]
  · intro heq
    subst heq
    simp [analyze_github_repository]

/-- C5 witness: main answers 404 and master answers 500, so both URLs
are attempted in order and the request fails as repository-unavailable. -/
theorem c5_witness :
    (analyze_github_repository ⟨some (404, none), some (500, none)⟩
        (fun _ => "L") (fun _ => "L")).1 = [Branch.main, Branch.master] ∧
    (analyze_github_repository ⟨some (404, none), some (500, none)⟩
        (fun _ => "L") (fun _ => "L")).2 = .error repoUnavailableErr := by
  have h := (c5_branch_fallback ⟨some (404, none), some (500, none)⟩
    (fun _ => "L") (fun _ => "L") 404 none rfl).1 (by decide)
  exact ⟨h.1, h.2 (by decide)⟩

/-- C7: a requirements content whose every line is blank (all whitespace)
or has the hash character as its first non-whitespace character parses to
the empty package list. -/
theorem c7_comments_only (content : String)
    (h : ∀ line ∈ pySplitlines content,
        (line.data.dropWhile isPySpace).isEmpty = true
          ∨ (line.data.dropWhile isPySpace).head? = some '#') :
    parse_requirements_txt content = [] := by
  unfold parse_requirements_txt
  rw [List.filterMap_eq_nil_iff]
  intro line hline
  rcases h line hline with hb | hc
  · have hd : line.data.dropWhile isPySpace = [] := by
      simpa [List.isEmpty_iff] using hb
    have hs : (pyStrip line).data = [] := by
      simp [pyStrip, charStrip, hd]
    simp [hs]
  · obtain ⟨rest, hrest⟩ : ∃ rest, line.data.dropWhile isPySpace = '#' :: rest := by
      cases hdw : line.data.dropWhile isPySpace with
      | nil => rw [hdw] at hc; simp at hc
      | cons a t =>
        rw [hdw] at hc
        simp only [List.head?_cons, Option.some.injEq] at hc
        exact ⟨t, by rw [hc]⟩
    have hs := charStrip_comment_head line.data rest hrest
    have hhead : (pyStrip line).data.head? = some '#' := by
      simp [pyStrip, hs]
    simp [hhead]

/-- C7 witness: a content of one comment line, one empty line, one
whitespace line and one indented comment parses to nothing. -/
theorem c7_witness :
    parse_requirements_txt "# comment only\n\n   \n\t# another" = [] :=
  c7_comments_only "# comment only\n\n   \n\t# another" (by decide)

/-- C2 counterexample: in repository-snapshot mode a package.json entry
that is not valid JSON does not abort the request — the loop continues —
and the request completes successfully with the records of the remaining
manifest entries, a partial result list. -/
theorem c2_counterexample :
    (analyze_github_repository
        ⟨some (200, some [⟨"repo-main/package.json", "not json", .err⟩,
                          ⟨"repo-main/requirements.txt", "flask==1.0", .err⟩]),
         none⟩ (fun _ => "MIT") (fun _ => "MIT")).2
      = .ok [⟨"flask", "MIT", "compliant"⟩] := by rfl

/-- C2 amended: only in direct-upload mode does an invalid package.json
abort the whole request with the 400 invalid-package.json response and no
partial results; in repository-snapshot mode every entry routed to the
package.json arm whose JSON fails to parse is skipped — the scan result
equals the scan of the remaining entries — so the request proceeds and
may return partial results. -/
theorem c2_invalid_packagejson (npmL pyL : String → String)
    (policy_name : String) (entries : List ZipEntry) (policy : Policy) :
    check_upload_packagejson npmL policy_name .err
      = .error (.badRequest "Invalid package.json file. Please check the file format.") ∧
    analyze_zip pyL npmL entries policy
      = analyze_zip pyL npmL (entries.filter (fun e => !skippedEntry e)) policy := by
  refine ⟨rfl, ?_⟩
  induction entries with
  | nil => rfl
  | cons e t ih =>
    by_cases hsk : skippedEntry e = true
    · rw [analyze_zip_cons, entryRecords_of_skipped pyL npmL policy e hsk,
        List.nil_append, ih]
      have : (e :: t).filter (fun e => !skippedEntry e)
          = t.filter (fun e => !skippedEntry e) := by
        simp [List.filter_cons, hsk]
      rw [this]
    · have hkeep : (e :: t).filter (fun e => !skippedEntry e)
          = e :: t.filter (fun e => !skippedEntry e) := by
        simp [List.filter_cons, Bool.not_eq_true] at hsk ⊢
        simp [hsk]
      rw [analyze_zip_cons, hkeep, analyze_zip_cons, ih]

end LicenceChecker
